import Mathlib

/-!
Shallow embedding of the vite-postgres backend lifecycle supervisor.

Every definition below is translated from the TypeScript source of the
repository: src/src/index.ts (monolithic plugin with the embedded PGlite
gateway), src/src/postgres.ts and src/unnamed/part_000 (the extracted
managePostgresProcess supervisor, the latter with the verbose/log-file
sink policy), and src/src/plugin.ts / src/unnamed/part_001 (plugin glue).

External effects (spawning, signalling, filesystem calls, logging,
sleeping) are recorded in an explicit effect trace, and the outcomes of
external commands (does the marker file exist, does initdb succeed, does
the readiness probe succeed on attempt i, does createdb succeed) are
inputs to the model.  The runtime is the Node.js event loop: callbacks
are synchronous and never interleave, so repeated invocations of
synchronous functions such as stop or cleanExit - even from racing
shutdown hooks - are always sequentialized; iterating the pure
transition function therefore models both sequential and concurrent
invocation.
-/

namespace VitePG

/-- Posix-style path join, standing in for path.join in the sources. -/
def joinPath (a b : String) : String := a ++ "/" ++ b

/-- Directory part of a path, standing in for path.dirname. -/
def dirnameOf (p : String) : String :=
  String.intercalate "/" ((p.splitOn "/").dropLast)

/-- Destination of the stdout/stderr of the spawned postgres process:
a file descriptor, the parent process streams, or dropped. -/
inductive Sink where
  | fd
  | inherit
  | ignore
  deriving DecidableEq, Repr

/-- One observable external effect of the supervisor. -/
inductive Eff where
  | mkdirE (p : String)
  | initdbE
  | logInfoE (msg : String)
  | logWarnE (msg : String)
  | logErrorE (msg : String)
  | openLogE (p : String) (mode : String)
  | closeLogE
  | spawnE (sink : Sink)
  | probeE (i : Nat)
  | sleepE (ms : Nat)
  | killE (sig : String)
  | createdbE
  | gatewayCloseE
  | engineCloseE
  deriving DecidableEq, Repr

/-- Recognizer for readiness-probe effects. -/
def isProbe : Eff → Bool
  | .probeE _ => true
  | _ => false

/-- Recognizer for cluster-initialization effects. -/
def isInitdb : Eff → Bool
  | .initdbE => true
  | _ => false

/-- Recognizer for process-spawn effects. -/
def isSpawn : Eff → Bool
  | .spawnE _ => true
  | _ => false

/-- Recognizer for termination-signal effects. -/
def isKill : Eff → Bool
  | .killE _ => true
  | _ => false

/-- Recognizer for database-creation effects. -/
def isCreatedb : Eff → Bool
  | .createdbE => true
  | _ => false

/-- Recognizer for error-log effects. -/
def isLogError : Eff → Bool
  | .logErrorE _ => true
  | _ => false

/-- Sinks of the spawn effects of a trace, in order. -/
def spawnSinks (tr : List Eff) : List Sink :=
  tr.filterMap fun e =>
    match e with
    | .spawnE s => some s
    | _ => none

/-- Log-file opens of a trace, in order, with their path and mode. -/
def openLogs (tr : List Eff) : List (String × String) :=
  tr.filterMap fun e =>
    match e with
    | .openLogE p m => some (p, m)
    | _ => none

/-- Loop body of waitForReady, translated from the retry loop shared by
all source variants: for i in 0..retries, run the pg_isready probe and
return true on success, otherwise sleep 100 ms and continue; when the
budget is exhausted return false.  fuel is the number of remaining
iterations and i the current loop index. -/
def waitForReadyAux (probe : Nat → Bool) : Nat → Nat → Bool × List Eff
  | _, 0 => (false, [])
  | i, fuel + 1 =>
    if probe i then
      (true, [Eff.probeE i])
    else
      ((waitForReadyAux probe (i + 1) fuel).1,
        Eff.probeE i :: Eff.sleepE 100 :: (waitForReadyAux probe (i + 1) fuel).2)

/-- Translation of waitForReady: 30 retries starting at index 0.  The
probe argument gives the outcome of the pg_isready call on each attempt
(a throwing execSync call is a false outcome, caught by the source). -/
def waitForReady (probe : Nat → Bool) : Bool × List Eff :=
  waitForReadyAux probe 0 30

/-- Spacing check on a trace: no two probe attempts are adjacent, and
every sleep between them lasts at least 100 ms. -/
def spaced : List Eff → Bool
  | [] => true
  | Eff.probeE _ :: Eff.probeE _ :: _ => false
  | Eff.sleepE ms :: rest => decide (100 ≤ ms) && spaced rest
  | _ :: rest => spaced rest

theorem waitForReadyAux_pos (probe : Nat → Bool) (i n : Nat)
    (h : probe i = true) :
    waitForReadyAux probe i (n + 1) = (true, [Eff.probeE i]) := by
  simp [waitForReadyAux, h]

theorem waitForReadyAux_neg (probe : Nat → Bool) (i n : Nat)
    (h : probe i = false) :
    waitForReadyAux probe i (n + 1) =
      ((waitForReadyAux probe (i + 1) n).1,
        Eff.probeE i :: Eff.sleepE 100 :: (waitForReadyAux probe (i + 1) n).2) := by
  simp [waitForReadyAux, h]

theorem countP_probe_cons (i : Nat) (l : List Eff) :
    (Eff.probeE i :: Eff.sleepE 100 :: l).countP isProbe =
      l.countP isProbe + 1 := by
  simp [List.countP_cons, isProbe]

theorem waitForReadyAux_probes_le (probe : Nat → Bool) :
    ∀ fuel i, ((waitForReadyAux probe i fuel).2.countP isProbe) ≤ fuel := by
  intro fuel
  induction fuel with
  | zero => intro i; simp [waitForReadyAux]
  | succ n ih =>
    intro i
    by_cases h : probe i
    · rw [waitForReadyAux_pos probe i n h]
      simp [List.countP_cons, isProbe]
    · rw [waitForReadyAux_neg probe i n (by simpa using h)]
      simp only [countP_probe_cons]
      have := ih (i + 1)
      omega

theorem waitForReadyAux_mem (probe : Nat → Bool) :
    ∀ fuel i e, e ∈ (waitForReadyAux probe i fuel).2 →
      (∃ j, e = Eff.probeE j) ∨ e = Eff.sleepE 100 := by
  intro fuel
  induction fuel with
  | zero => intro i e he; simp [waitForReadyAux] at he
  | succ n ih =>
    intro i e he
    by_cases h : probe i
    · rw [waitForReadyAux_pos probe i n h] at he
      simp at he
      exact Or.inl ⟨i, he⟩
    · rw [waitForReadyAux_neg probe i n (by simpa using h)] at he
      simp at he
      rcases he with he | he | he
      · exact Or.inl ⟨i, he⟩
      · exact Or.inr he
      · exact ih (i + 1) e he

theorem waitForReadyAux_true_iff (probe : Nat → Bool) :
    ∀ fuel i, (waitForReadyAux probe i fuel).1 = true ↔
      ∃ j, j < fuel ∧ probe (i + j) = true := by
  intro fuel
  induction fuel with
  | zero => intro i; simp [waitForReadyAux]
  | succ n ih =>
    intro i
    by_cases h : probe i
    · rw [waitForReadyAux_pos probe i n h]
      constructor
      · intro _
        exact ⟨0, Nat.succ_pos n, by simpa using h⟩
      · intro _
        rfl
    · rw [waitForReadyAux_neg probe i n (by simpa using h)]
      show (waitForReadyAux probe (i + 1) n).1 = true ↔ _
      rw [ih (i + 1)]
      constructor
      · rintro ⟨j, hj, hp⟩
        exact ⟨j + 1, by omega, by simpa [Nat.add_assoc, Nat.add_comm 1 j] using hp⟩
      · rintro ⟨j, hj, hp⟩
        match j with
        | 0 =>
          simp at hp
          rw [hp] at h
          exact absurd rfl h
        | k + 1 =>
          exact ⟨k, by omega, by simpa [Nat.add_assoc, Nat.add_comm 1 k] using hp⟩

theorem waitForReadyAux_first (probe : Nat → Bool) :
    ∀ fuel i k, k < fuel → probe (i + k) = true →
      (∀ j, j < k → probe (i + j) = false) →
      (waitForReadyAux probe i fuel).1 = true ∧
      ((waitForReadyAux probe i fuel).2.countP isProbe) = k + 1 := by
  intro fuel
  induction fuel with
  | zero => intro i k hk; omega
  | succ n ih =>
    intro i k hk hp hmin
    match k with
    | 0 =>
      have h : probe i = true := by simpa using hp
      rw [waitForReadyAux_pos probe i n h]
      simp [List.countP_cons, isProbe]
    | k + 1 =>
      have h : probe i = false := by simpa using hmin 0 (Nat.succ_pos k)
      have hrec := ih (i + 1) k (by omega)
        (by simpa [Nat.add_assoc, Nat.add_comm 1 k] using hp)
        (fun j hj => by
          simpa [Nat.add_assoc, Nat.add_comm 1 j] using hmin (j + 1) (by omega))
      rw [waitForReadyAux_neg probe i n h]
      refine ⟨hrec.1, ?_⟩
      show (Eff.probeE i :: Eff.sleepE 100 :: _).countP isProbe = _
      rw [countP_probe_cons, hrec.2]

theorem waitForReadyAux_exhaust (probe : Nat → Bool) :
    ∀ fuel i, (∀ j, j < fuel → probe (i + j) = false) →
      (waitForReadyAux probe i fuel).1 = false ∧
      ((waitForReadyAux probe i fuel).2.countP isProbe) = fuel := by
  intro fuel
  induction fuel with
  | zero => intro i _; simp [waitForReadyAux]
  | succ n ih =>
    intro i hall
    have h : probe i = false := by simpa using hall 0 (Nat.succ_pos n)
    have hrec := ih (i + 1) (fun j hj => by
      simpa [Nat.add_assoc, Nat.add_comm 1 j] using hall (j + 1) (by omega))
    rw [waitForReadyAux_neg probe i n h]
    refine ⟨hrec.1, ?_⟩
    show (Eff.probeE i :: Eff.sleepE 100 :: _).countP isProbe = _
    rw [countP_probe_cons, hrec.2]

theorem waitForReadyAux_spaced (probe : Nat → Bool) :
    ∀ fuel i, spaced (waitForReadyAux probe i fuel).2 = true := by
  intro fuel
  induction fuel with
  | zero => intro i; simp [waitForReadyAux, spaced]
  | succ n ih =>
    intro i
    by_cases h : probe i
    · rw [waitForReadyAux_pos probe i n h]
      simp [spaced]
    · rw [waitForReadyAux_neg probe i n (by simpa using h)]
      show spaced (Eff.probeE i :: Eff.sleepE 100 :: _) = true
      simp [spaced, ih (i + 1)]

/-- Claim C2: waitForReady performs at most 30 probe attempts, each
failed attempt separated from the next by a 100 ms sleep; it returns
true exactly when some attempt within the budget succeeds, it stops at
the first successful probe (performing exactly firstSuccess + 1
attempts), and on exhaustion it returns false (the probe failures are
caught, nothing is thrown) after exactly 30 attempts. -/
theorem c2_waitForReady_budget (probe : Nat → Bool) :
    ((waitForReady probe).2.countP isProbe ≤ 30) ∧
    spaced (waitForReady probe).2 = true ∧
    ((waitForReady probe).1 = true ↔ ∃ j, j < 30 ∧ probe j = true) ∧
    (∀ k, k < 30 → probe k = true → (∀ j, j < k → probe j = false) →
      (waitForReady probe).1 = true ∧
      (waitForReady probe).2.countP isProbe = k + 1) ∧
    ((waitForReady probe).1 = false →
      (waitForReady probe).2.countP isProbe = 30) := by
  refine ⟨waitForReadyAux_probes_le probe 30 0, waitForReadyAux_spaced probe 30 0, ?_, ?_, ?_⟩
  · simpa using waitForReadyAux_true_iff probe 30 0
  · intro k hk hp hmin
    exact waitForReadyAux_first probe 30 0 k hk (by simpa using hp)
      (fun j hj => by simpa using hmin j hj)
  · intro hfalse
    have hiff := waitForReadyAux_true_iff probe 30 0
    have hall : ∀ j, j < 30 → probe (0 + j) = false := by
      intro j hj
      by_contra hc
      have : probe (0 + j) = true := by
        cases hpj : probe (0 + j) with
        | false => exact absurd hpj hc
        | true => rfl
      have : (waitForReadyAux probe 0 30).1 = true := hiff.2 ⟨j, hj, this⟩
      rw [show waitForReadyAux probe 0 30 = waitForReady probe from rfl] at this
      rw [hfalse] at this
      exact Bool.false_ne_true this
    exact (waitForReadyAux_exhaust probe 30 0 hall).2

theorem c2_waitForReady_budget_witness :
    (((waitForReady fun j => j == 2).2.countP isProbe ≤ 30) ∧
    spaced (waitForReady fun j => j == 2).2 = true ∧
    ((waitForReady fun j => j == 2).1 = true ↔ ∃ j, j < 30 ∧ (j == 2) = true) ∧
    (∀ k, k < 30 → (k == 2) = true → (∀ j, j < k → (j == 2) = false) →
      (waitForReady fun j => j == 2).1 = true ∧
      (waitForReady fun j => j == 2).2.countP isProbe = k + 1) ∧
    ((waitForReady fun j => j == 2).1 = false →
      (waitForReady fun j => j == 2).2.countP isProbe = 30)) :=
  c2_waitForReady_budget fun j => j == 2

/-- Observable state of the supervisor handle returned by
managePostgresProcess.  hasProc records whether self.stop has been
reassigned from the initial no-op closure to the closure that signals
the spawned process; stopped is the stopped flag captured by that
closure. -/
structure PGHandle where
  hasProc : Bool
  stopped : Bool
  deriving DecidableEq, Repr

/-- Translation of self.stop from src/unnamed/part_000 and
src/src/postgres.ts: the initial assignment is a no-op closure; after
the spawn it is reassigned to a closure that returns when the stopped
flag is set, and otherwise sets the flag and sends SIGINT. -/
def stopFn (h : PGHandle) : PGHandle × List Eff :=
  if h.hasProc = false then (h, [])
  else if h.stopped = true then (h, [])
  else ({ h with stopped := true }, [Eff.killE "SIGINT"])

/-- Sequential iteration of stop.  Callbacks run synchronously on the
event loop, so n invocations, from however many racing shutdown hooks,
are n sequential applications. -/
def stopIter : Nat → PGHandle → PGHandle × List Eff
  | 0, h => (h, [])
  | n + 1, h =>
    ((stopIter n (stopFn h).1).1, (stopFn h).2 ++ (stopIter n (stopFn h).1).2)

/-- Translation of the exit-reporting handler registered with
proc.on from src/unnamed/part_000 lines 97-102 and src/src/postgres.ts
lines 76-81: when the stopped flag is already set the handler returns;
otherwise a non-zero, non-null exit code is logged as an unexpected
exit.  Nothing is thrown and no new process is spawned. -/
def procExitReport (stopped : Bool) (code : Option Int) : List Eff :=
  if stopped = true then []
  else
    match code with
    | none => []
    | some c =>
      if c = 0 then []
      else [Eff.logErrorE ("[postgres] Process exited unexpectedly with code " ++ toString c)]

/-- Result of one run of managePostgresProcess: the handle whose stop
behaviour is given by stopFn, and the trace of effects performed. -/
structure RunResult where
  handle : PGHandle
  trace : List Eff
  deriving Repr

namespace Part000

/-- Inputs of managePostgresProcess from src/unnamed/part_000: the
caller-supplied arguments together with the outcomes of the external
world (marker-file presence, initdb success, log-file open success,
probe outcomes, createdb success). -/
structure Env where
  dataDirExists : Bool
  hasMarker : Bool
  initdbOk : Bool
  verbose : Bool
  logFilePath : Option String
  openLogOk : Bool
  probe : Nat → Bool
  createdbOk : Bool
  dataDir : String
  dbName : String
  port : Nat

/-- Step 1 of managePostgresProcess: create the data directory when it
does not exist. -/
def mkdirTrace (env : Env) : List Eff :=
  if env.dataDirExists then [] else [Eff.mkdirE env.dataDir]

/-- Log-sink selection of src/unnamed/part_000 lines 54-87: verbose
inherits the parent streams; otherwise a configured log file is opened
with mode w (truncate), falling back to inherit with a warning when the
open fails; with neither option the output is discarded. -/
def sinkSelect (env : Env) : Sink × List Eff :=
  if env.verbose then (Sink.inherit, [])
  else
    match env.logFilePath with
    | none => (Sink.ignore, [])
    | some p =>
      if env.openLogOk then
        (Sink.fd, [Eff.mkdirE (dirnameOf p), Eff.openLogE p "w"])
      else
        (Sink.inherit,
          [Eff.logWarnE ("[postgres] Failed to open log file at \"" ++ p ++
            "\". Falling back to inherited logs.")])

/-- Steps 3-5 of managePostgresProcess from src/unnamed/part_000: log,
choose the sink, spawn, reassign self.stop, await readiness; on timeout
invoke self.stop and log the timeout; on readiness attempt createdb,
swallowing its failure. -/
def runAfterInit (env : Env) (t : List Eff) : RunResult :=
  if (waitForReady env.probe).1 = false then
    { handle := (stopFn { hasProc := true, stopped := false }).1,
      trace := t ++
        [Eff.logInfoE ("[postgres] Starting server on port " ++ toString env.port ++ "...")] ++
        (sinkSelect env).2 ++ [Eff.spawnE (sinkSelect env).1] ++
        (waitForReady env.probe).2 ++
        (stopFn { hasProc := true, stopped := false }).2 ++
        [Eff.logErrorE "[postgres] Timed out waiting for database to be ready."] }
  else
    { handle := { hasProc := true, stopped := false },
      trace := t ++
        [Eff.logInfoE ("[postgres] Starting server on port " ++ toString env.port ++ "...")] ++
        (sinkSelect env).2 ++ [Eff.spawnE (sinkSelect env).1] ++
        (waitForReady env.probe).2 ++ [Eff.createdbE] ++
        (if env.createdbOk then
          [Eff.logInfoE ("[postgres] Database \"" ++ env.dbName ++ "\" ready.")]
        else []) }

/-- Translation of managePostgresProcess from src/unnamed/part_000:
ensure the data directory, run initdb when the PG_VERSION marker is
missing (returning the no-op handle on initdb failure, before any
spawn), then proceed to spawn and readiness. -/
def run (env : Env) : RunResult :=
  if env.hasMarker then
    runAfterInit env (mkdirTrace env)
  else if env.initdbOk then
    runAfterInit env (mkdirTrace env ++
      [Eff.logInfoE "[postgres] Initializing database cluster...", Eff.initdbE])
  else
    { handle := { hasProc := false, stopped := false },
      trace := mkdirTrace env ++
        [Eff.logInfoE "[postgres] Initializing database cluster...", Eff.initdbE,
         Eff.logErrorE "[postgres] Failed to initialize DB. Ensure \"initdb\" is in your PATH."] }

end Part000

namespace PostgresTs

/-- Inputs of managePostgresProcess from src/src/postgres.ts. -/
structure EnvP where
  dataDirExists : Bool
  hasMarker : Bool
  initdbOk : Bool
  probe : Nat → Bool
  createdbOk : Bool
  dataDir : String
  dbName : String
  port : Nat

/-- Outcome of the execSync initdb call: it throws on a non-zero exit
status, modelled as an Except error. -/
def execInitdb (ok : Bool) : Except String Unit :=
  if ok then Except.ok () else Except.error "initdb exited with a non-zero status"

/-- Outcome of the execSync createdb call. -/
def execCreatedb (ok : Bool) : Except String Unit :=
  if ok then Except.ok () else Except.error "createdb exited with a non-zero status"

/-- Step 1 of managePostgresProcess: create the data directory when it
does not exist. -/
def mkdirTraceP (env : EnvP) : List Eff :=
  if env.dataDirExists then [] else [Eff.mkdirE env.dataDir]

/-- Steps 3-5 of managePostgresProcess from src/src/postgres.ts: log,
open the dataDir/postgres.log file in append mode, spawn with the file
descriptor as sink, reassign self.stop, await readiness; on timeout
invoke self.stop and log the timeout; on readiness attempt createdb,
swallowing its failure. -/
def afterInit (env : EnvP) (t : List Eff) : RunResult :=
  if (waitForReady env.probe).1 = false then
    { handle := (stopFn { hasProc := true, stopped := false }).1,
      trace := t ++
        [Eff.logInfoE ("[postgres] Starting server on port " ++ toString env.port ++ "..."),
         Eff.openLogE (joinPath env.dataDir "postgres.log") "a",
         Eff.spawnE Sink.fd] ++
        (waitForReady env.probe).2 ++
        (stopFn { hasProc := true, stopped := false }).2 ++
        [Eff.logErrorE "[postgres] Timed out waiting for database to be ready."] }
  else
    { handle := { hasProc := true, stopped := false },
      trace := t ++
        [Eff.logInfoE ("[postgres] Starting server on port " ++ toString env.port ++ "..."),
         Eff.openLogE (joinPath env.dataDir "postgres.log") "a",
         Eff.spawnE Sink.fd] ++
        (waitForReady env.probe).2 ++ [Eff.createdbE] ++
        (match execCreatedb env.createdbOk with
         | Except.ok _ =>
            [Eff.logInfoE ("[postgres] Database \"" ++ env.dbName ++ "\" ready.")]
         | Except.error _ => []) }

/-- Translation of managePostgresProcess from src/src/postgres.ts.  The
function is async and its body catches every throwing call it makes
(initdb with an early return of the no-op handle, probe failures inside
waitForReady, createdb with an ignore comment); an uncaught throw would
surface as an Except error, so the returned value being ok on every
input is exactly the promise never rejecting. -/
def managePostgresProcess (env : EnvP) : Except String RunResult :=
  if env.hasMarker then
    Except.ok (afterInit env (mkdirTraceP env))
  else
    match execInitdb env.initdbOk with
    | Except.ok _ =>
      Except.ok (afterInit env (mkdirTraceP env ++
        [Eff.logInfoE "[postgres] Initializing database cluster...", Eff.initdbE]))
    | Except.error _ =>
      Except.ok
        { handle := { hasProc := false, stopped := false },
          trace := mkdirTraceP env ++
            [Eff.logInfoE "[postgres] Initializing database cluster...", Eff.initdbE,
             Eff.logErrorE "[postgres] Failed to initialize DB. Ensure \"initdb\" is in your PATH."] }

end PostgresTs

namespace IndexTs

/-- Raw protocol bytes. -/
abbrev Bytes := List Nat

/-- Frames written back to the client socket by the gateway. -/
inductive OutFrame where
  | dataF (b : Bytes)
  | backendErrorF (severity code message : String)
  | readyForQueryF (status : String)
  deriving DecidableEq, Repr

/-- Outcome of one onMessage invocation: the optional response frames
(none means the hook produced no response) and the execProtocol calls
made on the embedded engine. -/
structure MsgResult where
  response : Option (List OutFrame)
  engineCalls : List Bytes
  deriving DecidableEq, Repr

/-- Translation of the onMessage handler of src/src/index.ts lines
157-174: before authentication the handler returns without a response
and without touching the engine; after authentication the data is
passed to execProtocol and the produced response frames are returned in
order; when execProtocol throws, the caught error message is wrapped in
a wire-format error frame with severity ERROR and code XX000, followed
by a ready-for-query error frame when the connection object is
available. -/
def onMessage (execProtocol : Bytes → Except String (List (Unit × Bytes)))
    (connDefined : Bool) (isAuthenticated : Bool) (data : Bytes) : MsgResult :=
  if isAuthenticated = false then { response := none, engineCalls := [] }
  else
    match execProtocol data with
    | Except.ok responses =>
      { response := some (responses.map fun p => OutFrame.dataF p.2),
        engineCalls := [data] }
    | Except.error msg =>
      { response :=
          some (if connDefined then
            [OutFrame.backendErrorF "ERROR" "XX000" msg,
             OutFrame.readyForQueryF "error"]
          else [OutFrame.backendErrorF "ERROR" "XX000" msg]),
        engineCalls := [data] }

/-- Traffic seen by one accepted socket: for each inbound frame
sequence, the authentication state at the time it is received, plus
whether the transport itself failed (socket error or unexpected
disconnect inside the async connection handler). -/
structure ConnInput where
  frames : List (Bool × Bytes)
  transportError : Bool

/-- Translation of the per-socket handler of src/src/index.ts: the
async body processes inbound data through onMessage, whose internal
try/catch confines engine-level failures, so only a transport-level
failure reaches the outer catch that destroys the socket.  The second
component records whether socket.destroy was called. -/
def handleConnection (execProtocol : Bytes → Except String (List (Unit × Bytes)))
    (connDefined : Bool) (inp : ConnInput) : List MsgResult × Bool :=
  if inp.transportError then ([], true)
  else (inp.frames.map (fun f => onMessage execProtocol connDefined f.1 f.2), false)

/-- Nullable resource slots of the plugin closure in src/src/index.ts:
whether gatewayServer, pgliteDb and pgProcess are currently non-null. -/
structure GwState where
  gatewayServer : Bool
  pgliteDb : Bool
  pgProcess : Bool
  deriving DecidableEq, Repr

/-- Translation of cleanExit from src/src/index.ts lines 296-313: close
the gateway listener, close the PGlite engine, and SIGINT the native
process - each only when its slot is non-null - and null every slot. -/
def cleanExit (s : GwState) : GwState × List Eff :=
  ({ gatewayServer := false, pgliteDb := false, pgProcess := false },
    (if s.gatewayServer then [Eff.gatewayCloseE] else []) ++
    (if s.pgliteDb then [Eff.engineCloseE] else []) ++
    (if s.pgProcess then [Eff.killE "SIGINT"] else []))

/-- Sequential iteration of cleanExit; the function is synchronous, so
invocations from the several registered shutdown hooks sequentialize on
the event loop. -/
def cleanIter : Nat → GwState → GwState × List Eff
  | 0, s => (s, [])
  | n + 1, s =>
    ((cleanIter n (cleanExit s).1).1, (cleanExit s).2 ++ (cleanIter n (cleanExit s).1).2)

/-- Filesystem view used when the plugin corrects the PGlite path. -/
structure FsView where
  pathExists : String → Bool
  isDirectory : String → Bool

/-- Translation of the PGlite branch of the config hook of
src/src/index.ts lines 88-104: default file under the temp directory,
caller override, and the trailing-separator rule that treats the
configured path as a directory. -/
def resolvePGliteDbPath (sep tmpdir rootBasename rootHash dbName : String)
    (optDbPath : Option String) : String :=
  if (optDbPath.getD (joinPath (joinPath tmpdir "vite-postgres")
        (rootBasename ++ "-" ++ rootHash ++ ".db"))).endsWith "/" ∨
     (optDbPath.getD (joinPath (joinPath tmpdir "vite-postgres")
        (rootBasename ++ "-" ++ rootHash ++ ".db"))).endsWith sep then
    joinPath (optDbPath.getD (joinPath (joinPath tmpdir "vite-postgres")
      (rootBasename ++ "-" ++ rootHash ++ ".db"))) (dbName ++ ".db")
  else
    optDbPath.getD (joinPath (joinPath tmpdir "vite-postgres")
      (rootBasename ++ "-" ++ rootHash ++ ".db"))

/-- Translation of the correction in configureServer of src/src/index.ts
lines 134-139: when the resolved path exists and is a directory, the
path becomes a file named after the database inside that directory. -/
def correctDbPath (fs : FsView) (dbName dbPath : String) : String :=
  if fs.pathExists dbPath && fs.isDirectory dbPath then
    joinPath dbPath (dbName ++ ".db")
  else dbPath

/-- History of the values taken by the dbPath closure variable over one
session, and the path the engine is constructed with. -/
structure SessionPaths where
  dbPathHistory : List String
  engineStartPath : String
  deriving DecidableEq, Repr

/-- One session of the PGlite branch: config resolves dbPath once;
configureServer applies the directory-shape correction synchronously,
at most once, and then constructs the engine; no later step reassigns
the path. -/
def runPGliteSession (sep tmpdir rootBasename rootHash dbName : String)
    (optDbPath : Option String) (fs : FsView) : SessionPaths :=
  { dbPathHistory :=
      resolvePGliteDbPath sep tmpdir rootBasename rootHash dbName optDbPath ::
      (if fs.pathExists (resolvePGliteDbPath sep tmpdir rootBasename rootHash dbName optDbPath) &&
          fs.isDirectory (resolvePGliteDbPath sep tmpdir rootBasename rootHash dbName optDbPath) then
        [correctDbPath fs dbName (resolvePGliteDbPath sep tmpdir rootBasename rootHash dbName optDbPath)]
      else []),
    engineStartPath :=
      correctDbPath fs dbName (resolvePGliteDbPath sep tmpdir rootBasename rootHash dbName optDbPath) }

end IndexTs

theorem waitForReady_countP_zero (probe : Nat → Bool) (p : Eff → Bool)
    (hp : ∀ j, p (Eff.probeE j) = false) (hs : p (Eff.sleepE 100) = false) :
    (waitForReady probe).2.countP p = 0 := by
  rw [List.countP_eq_zero]
  intro e he
  rcases waitForReadyAux_mem probe 30 0 e he with ⟨j, rfl⟩ | rfl
  · simp [hp j]
  · simp [hs]

theorem waitForReady_filterMap_nil {α : Type} (probe : Nat → Bool)
    (f : Eff → Option α)
    (hp : ∀ j, f (Eff.probeE j) = none) (hs : f (Eff.sleepE 100) = none) :
    (waitForReady probe).2.filterMap f = [] := by
  rw [List.filterMap_eq_nil_iff]
  intro e he
  rcases waitForReadyAux_mem probe 30 0 e he with ⟨j, rfl⟩ | rfl
  · exact hp j
  · exact hs

theorem stopFn_stopped (h : PGHandle) (hs : h.stopped = true) :
    stopFn h = (h, []) := by
  simp [stopFn, hs]

theorem stopIter_stopped (n : Nat) (h : PGHandle) (hs : h.stopped = true) :
    stopIter n h = (h, []) := by
  induction n with
  | zero => rfl
  | succ m ih => simp [stopIter, stopFn_stopped h hs, ih]

theorem cleanIter_null (n : Nat) :
    IndexTs.cleanIter n
      { gatewayServer := false, pgliteDb := false, pgProcess := false } =
      ({ gatewayServer := false, pgliteDb := false, pgProcess := false }, []) := by
  induction n with
  | zero => rfl
  | succ m ih => simp [IndexTs.cleanIter, IndexTs.cleanExit, ih]

theorem spawnSinks_append (l1 l2 : List Eff) :
    spawnSinks (l1 ++ l2) = spawnSinks l1 ++ spawnSinks l2 := by
  simp [spawnSinks]

theorem openLogs_append (l1 l2 : List Eff) :
    openLogs (l1 ++ l2) = openLogs l1 ++ openLogs l2 := by
  simp [openLogs]

theorem mkdirTrace_countP_zero (env : Part000.Env) (p : Eff → Bool)
    (h1 : ∀ q, p (Eff.mkdirE q) = false) :
    (Part000.mkdirTrace env).countP p = 0 := by
  unfold Part000.mkdirTrace
  split <;> simp [h1]

theorem sinkSelect_countP_zero (env : Part000.Env) (p : Eff → Bool)
    (h1 : ∀ q, p (Eff.mkdirE q) = false)
    (h2 : ∀ q m, p (Eff.openLogE q m) = false)
    (h3 : ∀ m, p (Eff.logWarnE m) = false) :
    (Part000.sinkSelect env).2.countP p = 0 := by
  unfold Part000.sinkSelect
  split
  · simp
  · split
    · simp
    · split
      · simp [h1, h2]
      · simp [h3]

theorem sinkSelect_spawnSinks (env : Part000.Env) :
    spawnSinks (Part000.sinkSelect env).2 = [] := by
  unfold Part000.sinkSelect
  split
  · simp [spawnSinks]
  · split
    · simp [spawnSinks]
    · split <;> simp [spawnSinks]

theorem mkdirTrace_spawn_open (env : Part000.Env) :
    spawnSinks (Part000.mkdirTrace env) = [] ∧
    openLogs (Part000.mkdirTrace env) = [] := by
  unfold Part000.mkdirTrace
  constructor <;> split <;> simp [spawnSinks, openLogs]

theorem runAfterInit_spawn_open (env : Part000.Env) (t : List Eff)
    (ht1 : spawnSinks t = []) (ht2 : openLogs t = []) :
    spawnSinks (Part000.runAfterInit env t).trace = [(Part000.sinkSelect env).1] ∧
    openLogs (Part000.runAfterInit env t).trace = openLogs (Part000.sinkSelect env).2 ∧
    (∀ e, e ∈ (Part000.sinkSelect env).2 → e ∈ (Part000.runAfterInit env t).trace) := by
  have hwrs : spawnSinks (waitForReady env.probe).2 = [] :=
    waitForReady_filterMap_nil env.probe _ (fun j => rfl) rfl
  have hwro : openLogs (waitForReady env.probe).2 = [] :=
    waitForReady_filterMap_nil env.probe _ (fun j => rfl) rfl
  unfold Part000.runAfterInit
  split
  · refine ⟨?_, ?_, ?_⟩
    · simp only [spawnSinks_append, ht1, hwrs, sinkSelect_spawnSinks,
        List.nil_append, List.append_nil]
      simp [spawnSinks, stopFn]
    · simp only [openLogs_append, ht2, hwro, List.nil_append, List.append_nil]
      simp [openLogs, stopFn]
    · intro e he
      simp only [List.mem_append]
      tauto
  · refine ⟨?_, ?_, ?_⟩
    · simp only [spawnSinks_append, ht1, hwrs, sinkSelect_spawnSinks,
        List.nil_append, List.append_nil]
      by_cases hcd : env.createdbOk = true <;> simp [hcd, spawnSinks]
    · simp only [openLogs_append, ht2, hwro, List.nil_append, List.append_nil]
      by_cases hcd : env.createdbOk = true <;> simp [hcd, openLogs]
    · intro e he
      simp only [List.mem_append]
      tauto

theorem part000_spawn_open (env : Part000.Env)
    (hinit : env.hasMarker = true ∨ env.initdbOk = true) :
    spawnSinks (Part000.run env).trace = [(Part000.sinkSelect env).1] ∧
    openLogs (Part000.run env).trace = openLogs (Part000.sinkSelect env).2 ∧
    (∀ e, e ∈ (Part000.sinkSelect env).2 → e ∈ (Part000.run env).trace) := by
  obtain ⟨hm1, hm2⟩ := mkdirTrace_spawn_open env
  by_cases hm : env.hasMarker = true
  · rw [Part000.run, if_pos hm]
    exact runAfterInit_spawn_open env _ hm1 hm2
  · have hi : env.initdbOk = true := by
      rcases hinit with h | h
      · exact absurd h hm
      · exact h
    rw [Part000.run, if_neg hm, if_pos hi]
    refine runAfterInit_spawn_open env _ ?_ ?_
    · simp only [spawnSinks_append, hm1, List.nil_append]
      simp [spawnSinks]
    · simp only [openLogs_append, hm2, List.nil_append]
      simp [openLogs]

/-- Claim C1: stop is idempotent.  Iterating stop any positive number
of times on a freshly spawned native handle emits exactly one SIGINT;
once the stopped flag is set every further stop is a no-op; and in the
index.ts plugin, iterating cleanExit any positive number of times on
the embedded-mode state performs exactly one listener close and one
engine close, and on the native-mode state exactly one SIGINT.
Invocations are synchronous on the event loop, so concurrent triggers
sequentialize into exactly these iterations. -/
theorem c1_stop_idempotent (n : Nat) (hn : 1 ≤ n) :
    (stopIter n { hasProc := true, stopped := false }).2 = [Eff.killE "SIGINT"] ∧
    (∀ h : PGHandle, h.stopped = true → stopFn h = (h, [])) ∧
    (IndexTs.cleanIter n
      { gatewayServer := true, pgliteDb := true, pgProcess := false }).2 =
      [Eff.gatewayCloseE, Eff.engineCloseE] ∧
    (IndexTs.cleanIter n
      { gatewayServer := false, pgliteDb := false, pgProcess := true }).2 =
      [Eff.killE "SIGINT"] := by
  obtain ⟨m, rfl⟩ : ∃ m, n = m + 1 := ⟨n - 1, by omega⟩
  refine ⟨?_, fun h hs => stopFn_stopped h hs, ?_, ?_⟩
  · have h1 : stopFn { hasProc := true, stopped := false } =
        ({ hasProc := true, stopped := true }, [Eff.killE "SIGINT"]) := by
      simp [stopFn]
    simp [stopIter, h1,
      stopIter_stopped m { hasProc := true, stopped := true } rfl]
  · simp [IndexTs.cleanIter, IndexTs.cleanExit, cleanIter_null m]
  · simp [IndexTs.cleanIter, IndexTs.cleanExit, cleanIter_null m]

theorem c1_stop_idempotent_witness :
    ((stopIter 2 { hasProc := true, stopped := false }).2 = [Eff.killE "SIGINT"] ∧
    (∀ h : PGHandle, h.stopped = true → stopFn h = (h, [])) ∧
    (IndexTs.cleanIter 2
      { gatewayServer := true, pgliteDb := true, pgProcess := false }).2 =
      [Eff.gatewayCloseE, Eff.engineCloseE] ∧
    (IndexTs.cleanIter 2
      { gatewayServer := false, pgliteDb := false, pgProcess := true }).2 =
      [Eff.killE "SIGINT"]) :=
  c1_stop_idempotent 2 (by decide)

/-- Claim C5: initdb runs exactly once when the PG_VERSION marker is
missing and never when it is present; when initdb fails the supervisor
logs the failure and returns before any spawn, so the backend process
is never started. -/
theorem c5_initdb_once (env : Part000.Env) :
    ((Part000.run env).trace.countP isInitdb = if env.hasMarker then 0 else 1) ∧
    (env.hasMarker = false → env.initdbOk = false →
      (Part000.run env).trace.countP isSpawn = 0 ∧
      Eff.logErrorE "[postgres] Failed to initialize DB. Ensure \"initdb\" is in your PATH." ∈
        (Part000.run env).trace) := by
  have hwr : (waitForReady env.probe).2.countP isInitdb = 0 :=
    waitForReady_countP_zero env.probe isInitdb (fun j => rfl) rfl
  have hsink : (Part000.sinkSelect env).2.countP isInitdb = 0 :=
    sinkSelect_countP_zero env isInitdb (fun q => rfl) (fun q m => rfl) (fun m => rfl)
  have hmk : (Part000.mkdirTrace env).countP isInitdb = 0 :=
    mkdirTrace_countP_zero env isInitdb (fun q => rfl)
  have hmks : (Part000.mkdirTrace env).countP isSpawn = 0 :=
    mkdirTrace_countP_zero env isSpawn (fun q => rfl)
  constructor
  · by_cases hm : env.hasMarker = true
    · rw [Part000.run, if_pos hm, if_pos hm]
      unfold Part000.runAfterInit
      split
      · simp only [List.countP_append, hwr, hsink, hmk]
        simp [List.countP_cons, isInitdb, stopFn]
      · by_cases hcd : env.createdbOk = true <;>
          · simp only [hcd, List.countP_append, hwr, hsink, hmk]
            simp [List.countP_cons, isInitdb]
    · by_cases hi : env.initdbOk = true
      · rw [Part000.run, if_neg hm, if_pos hi, if_neg hm]
        unfold Part000.runAfterInit
        split
        · simp only [List.countP_append, hwr, hsink, hmk]
          simp [List.countP_cons, isInitdb, stopFn]
        · by_cases hcd : env.createdbOk = true <;>
            · simp only [hcd, List.countP_append, hwr, hsink, hmk]
              simp [List.countP_cons, isInitdb]
      · rw [Part000.run, if_neg hm, if_neg hi, if_neg hm]
        simp only [List.countP_append, hmk]
        simp [List.countP_cons, isInitdb]
  · intro hm hi
    rw [Part000.run, if_neg (by simp [hm]), if_neg (by simp [hi])]
    constructor
    · simp only [List.countP_append, hmks]
      simp [List.countP_cons, isSpawn]
    · simp

def envInitFail : Part000.Env :=
  { dataDirExists := true, hasMarker := false, initdbOk := false,
    verbose := true, logFilePath := none, openLogOk := true,
    probe := fun _ => true, createdbOk := true,
    dataDir := "/data", dbName := "app", port := 5432 }

theorem c5_initdb_once_witness :
    ((Part000.run envInitFail).trace.countP isInitdb =
      if envInitFail.hasMarker then 0 else 1) ∧
    (envInitFail.hasMarker = false → envInitFail.initdbOk = false →
      (Part000.run envInitFail).trace.countP isSpawn = 0 ∧
      Eff.logErrorE "[postgres] Failed to initialize DB. Ensure \"initdb\" is in your PATH." ∈
        (Part000.run envInitFail).trace) :=
  c5_initdb_once envInitFail

/-- Claim C7: the spawned process log sink follows the priority order
verbose over file over discard: verbose inherits the parent streams and
opens no file; a configured log file is opened exactly once per session
start, in truncate mode; when opening it fails the sink falls back to
inherit and a warning is logged; with neither option the output is
discarded. -/
theorem c7_log_sink (env : Part000.Env)
    (hinit : env.hasMarker = true ∨ env.initdbOk = true) :
    (env.verbose = true →
      spawnSinks (Part000.run env).trace = [Sink.inherit] ∧
      openLogs (Part000.run env).trace = []) ∧
    (∀ p, env.verbose = false → env.logFilePath = some p → env.openLogOk = true →
      spawnSinks (Part000.run env).trace = [Sink.fd] ∧
      openLogs (Part000.run env).trace = [(p, "w")]) ∧
    (∀ p, env.verbose = false → env.logFilePath = some p → env.openLogOk = false →
      spawnSinks (Part000.run env).trace = [Sink.inherit] ∧
      openLogs (Part000.run env).trace = [] ∧
      Eff.logWarnE ("[postgres] Failed to open log file at \"" ++ p ++
        "\". Falling back to inherited logs.") ∈ (Part000.run env).trace) ∧
    (env.verbose = false → env.logFilePath = none →
      spawnSinks (Part000.run env).trace = [Sink.ignore] ∧
      openLogs (Part000.run env).trace = []) := by
  obtain ⟨hspawn, hopen, hmem⟩ := part000_spawn_open env hinit
  refine ⟨?_, ?_, ?_, ?_⟩
  · intro hv
    have hsel : Part000.sinkSelect env = (Sink.inherit, []) := by
      simp [Part000.sinkSelect, hv]
    rw [hspawn, hopen, hsel]
    simp [openLogs]
  · intro p hv hlp ho
    have hsel : Part000.sinkSelect env =
        (Sink.fd, [Eff.mkdirE (dirnameOf p), Eff.openLogE p "w"]) := by
      simp [Part000.sinkSelect, hv, hlp, ho]
    rw [hspawn, hopen, hsel]
    simp [openLogs]
  · intro p hv hlp ho
    have hsel : Part000.sinkSelect env =
        (Sink.inherit, [Eff.logWarnE ("[postgres] Failed to open log file at \"" ++ p ++
          "\". Falling back to inherited logs.")]) := by
      simp [Part000.sinkSelect, hv, hlp, ho]
    rw [hspawn, hopen, hsel]
    refine ⟨rfl, by simp [openLogs], ?_⟩
    apply hmem
    rw [hsel]
    simp
  · intro hv hlp
    have hsel : Part000.sinkSelect env = (Sink.ignore, []) := by
      simp [Part000.sinkSelect, hv, hlp]
    rw [hspawn, hopen, hsel]
    simp [openLogs]

def envLogFile : Part000.Env :=
  { dataDirExists := true, hasMarker := true, initdbOk := true,
    verbose := false, logFilePath := some "/tmp/pg.log", openLogOk := true,
    probe := fun _ => true, createdbOk := true,
    dataDir := "/data", dbName := "app", port := 5432 }

theorem c7_log_sink_witness :
    (envLogFile.verbose = true →
      spawnSinks (Part000.run envLogFile).trace = [Sink.inherit] ∧
      openLogs (Part000.run envLogFile).trace = []) ∧
    (∀ p, envLogFile.verbose = false → envLogFile.logFilePath = some p →
      envLogFile.openLogOk = true →
      spawnSinks (Part000.run envLogFile).trace = [Sink.fd] ∧
      openLogs (Part000.run envLogFile).trace = [(p, "w")]) ∧
    (∀ p, envLogFile.verbose = false → envLogFile.logFilePath = some p →
      envLogFile.openLogOk = false →
      spawnSinks (Part000.run envLogFile).trace = [Sink.inherit] ∧
      openLogs (Part000.run envLogFile).trace = [] ∧
      Eff.logWarnE ("[postgres] Failed to open log file at \"" ++ p ++
        "\". Falling back to inherited logs.") ∈ (Part000.run envLogFile).trace) ∧
    (envLogFile.verbose = false → envLogFile.logFilePath = none →
      spawnSinks (Part000.run envLogFile).trace = [Sink.ignore] ∧
      openLogs (Part000.run envLogFile).trace = []) :=
  c7_log_sink envLogFile (Or.inl rfl)

/-- Claim C9: a non-zero, non-null exit code of the native backend is
logged as an unexpected exit exactly when the stopped flag has not yet
been set; after stop has set the flag the handler reports nothing, and
the handler never spawns a replacement process. -/
theorem c9_exit_report (stopped : Bool) (c : Int) (hc : c ≠ 0) :
    (procExitReport stopped (some c) =
      [Eff.logErrorE ("[postgres] Process exited unexpectedly with code " ++ toString c)]
      ↔ stopped = false) ∧
    (procExitReport stopped (some c) = [] ↔ stopped = true) ∧
    (∀ s, Eff.spawnE s ∉ procExitReport stopped (some c)) := by
  cases stopped
  · simp [procExitReport, hc]
  · simp [procExitReport]

theorem c9_exit_report_witness :
    ((procExitReport false (some 1) =
      [Eff.logErrorE ("[postgres] Process exited unexpectedly with code " ++ toString (1 : Int))]
      ↔ false = false) ∧
    (procExitReport false (some 1) = [] ↔ false = true) ∧
    (∀ s, Eff.spawnE s ∉ procExitReport false (some 1))) :=
  c9_exit_report false 1 (by decide)

theorem mkdirTraceP_countP_zero (env : PostgresTs.EnvP) (p : Eff → Bool)
    (h1 : ∀ q, p (Eff.mkdirE q) = false) :
    (PostgresTs.mkdirTraceP env).countP p = 0 := by
  unfold PostgresTs.mkdirTraceP
  split <;> simp [h1]

theorem afterInit_timeout (env : PostgresTs.EnvP) (t : List Eff)
    (hwr1 : (waitForReady env.probe).1 = false)
    (htk : t.countP isKill = 0) (htc : t.countP isCreatedb = 0) :
    (PostgresTs.afterInit env t).trace.countP isKill = 1 ∧
    Eff.logErrorE "[postgres] Timed out waiting for database to be ready." ∈
      (PostgresTs.afterInit env t).trace ∧
    (PostgresTs.afterInit env t).trace.countP isCreatedb = 0 ∧
    (PostgresTs.afterInit env t).handle = { hasProc := true, stopped := true } := by
  have hwrk : (waitForReady env.probe).2.countP isKill = 0 :=
    waitForReady_countP_zero env.probe isKill (fun j => rfl) rfl
  have hwrc : (waitForReady env.probe).2.countP isCreatedb = 0 :=
    waitForReady_countP_zero env.probe isCreatedb (fun j => rfl) rfl
  unfold PostgresTs.afterInit
  rw [if_pos hwr1]
  refine ⟨?_, ?_, ?_, ?_⟩
  · simp only [List.countP_append, htk, hwrk]
    simp [List.countP_cons, isKill, stopFn]
  · simp [stopFn]
  · simp only [List.countP_append, htc, hwrc]
    simp [List.countP_cons, isCreatedb, stopFn]
  · simp [stopFn]

theorem afterInit_success (env : PostgresTs.EnvP) (t : List Eff)
    (hwr1 : (waitForReady env.probe).1 = true)
    (hte : t.countP isLogError = 0) :
    (PostgresTs.afterInit env t).handle = { hasProc := true, stopped := false } ∧
    (PostgresTs.afterInit env t).trace.countP isLogError = 0 := by
  have hwre : (waitForReady env.probe).2.countP isLogError = 0 :=
    waitForReady_countP_zero env.probe isLogError (fun j => rfl) rfl
  unfold PostgresTs.afterInit
  rw [if_neg (by simp [hwr1])]
  refine ⟨rfl, ?_⟩
  by_cases hcd : env.createdbOk = true <;>
    · simp only [hcd, PostgresTs.execCreatedb, List.countP_append, hte, hwre]
      simp [List.countP_cons, isLogError]

/-- Claim C6: when the readiness poll exhausts its 30-attempt budget,
the supervisor invokes its own stop (sending exactly one SIGINT to the
process it spawned), reports the timeout through the logger, and aborts
session startup immediately: createdb is never attempted and the handle
is left in the stopped state. -/
theorem c6_readiness_timeout (env : PostgresTs.EnvP)
    (hinit : env.hasMarker = true ∨ env.initdbOk = true)
    (hfail : ∀ j, j < 30 → env.probe j = false) :
    ∃ r, PostgresTs.managePostgresProcess env = Except.ok r ∧
      r.trace.countP isKill = 1 ∧
      Eff.logErrorE "[postgres] Timed out waiting for database to be ready." ∈ r.trace ∧
      r.trace.countP isCreatedb = 0 ∧
      r.handle = { hasProc := true, stopped := true } := by
  have hwr1 : (waitForReady env.probe).1 = false :=
    (waitForReadyAux_exhaust env.probe 30 0 (fun j hj => by simpa using hfail j hj)).1
  by_cases hm : env.hasMarker = true
  · refine ⟨PostgresTs.afterInit env (PostgresTs.mkdirTraceP env), ?_, ?_⟩
    · simp [PostgresTs.managePostgresProcess, hm]
    · have h := afterInit_timeout env (PostgresTs.mkdirTraceP env) hwr1
        (mkdirTraceP_countP_zero env isKill (fun q => rfl))
        (mkdirTraceP_countP_zero env isCreatedb (fun q => rfl))
      exact ⟨h.1, h.2.1, h.2.2.1, h.2.2.2⟩
  · have hi : env.initdbOk = true := hinit.resolve_left hm
    refine ⟨PostgresTs.afterInit env (PostgresTs.mkdirTraceP env ++
      [Eff.logInfoE "[postgres] Initializing database cluster...", Eff.initdbE]), ?_, ?_⟩
    · simp [PostgresTs.managePostgresProcess, hm, hi, PostgresTs.execInitdb]
    · have htk : (PostgresTs.mkdirTraceP env ++
          [Eff.logInfoE "[postgres] Initializing database cluster...", Eff.initdbE]).countP isKill = 0 := by
        simp only [List.countP_append, mkdirTraceP_countP_zero env isKill (fun q => rfl)]
        simp [List.countP_cons, isKill]
      have htc : (PostgresTs.mkdirTraceP env ++
          [Eff.logInfoE "[postgres] Initializing database cluster...", Eff.initdbE]).countP isCreatedb = 0 := by
        simp only [List.countP_append, mkdirTraceP_countP_zero env isCreatedb (fun q => rfl)]
        simp [List.countP_cons, isCreatedb]
      have h := afterInit_timeout env _ hwr1 htk htc
      exact ⟨h.1, h.2.1, h.2.2.1, h.2.2.2⟩

def envTimeout : PostgresTs.EnvP :=
  { dataDirExists := true, hasMarker := true, initdbOk := true,
    probe := fun _ => false, createdbOk := true,
    dataDir := "/data", dbName := "app", port := 5432 }

theorem c6_readiness_timeout_witness :
    ∃ r, PostgresTs.managePostgresProcess envTimeout = Except.ok r ∧
      r.trace.countP isKill = 1 ∧
      Eff.logErrorE "[postgres] Timed out waiting for database to be ready." ∈ r.trace ∧
      r.trace.countP isCreatedb = 0 ∧
      r.handle = { hasProc := true, stopped := true } :=
  c6_readiness_timeout envTimeout (Or.inl rfl) (fun _ _ => rfl)

namespace PostgresTsFull

/-- Inputs of managePostgresProcess from src/src/postgres.ts with the
outcome of every throwing call its body makes, including the two
filesystem calls that sit outside any try/catch: fs.mkdirSync of the
data directory (lines 24-26) and fs.openSync of the log file
(lines 50-53). -/
structure EnvF where
  dataDirExists : Bool
  mkdirOk : Bool
  hasMarker : Bool
  initdbOk : Bool
  openLogOk : Bool
  probe : Nat → Bool
  createdbOk : Bool
  dataDir : String
  dbName : String
  port : Nat

/-- Restriction of the full input record to the stages modelled by
PostgresTs: the two unguarded filesystem outcomes are dropped because
PostgresTs covers the body only from the point where they succeeded. -/
def toEnvP (env : EnvF) : PostgresTs.EnvP :=
  { dataDirExists := env.dataDirExists, hasMarker := env.hasMarker,
    initdbOk := env.initdbOk, probe := env.probe, createdbOk := env.createdbOk,
    dataDir := env.dataDir, dbName := env.dbName, port := env.port }

/-- Outcome of the fs.mkdirSync call at src/src/postgres.ts lines
24-26: run only when the data directory is missing; it sits outside
any try/catch, so its failure throws out of managePostgresProcess. -/
def mkdirSyncCall (env : EnvF) : Except String (List Eff) :=
  if env.dataDirExists then Except.ok []
  else if env.mkdirOk then Except.ok [Eff.mkdirE env.dataDir]
  else Except.error "EACCES: mkdirSync failed"

/-- Outcome of the fs.openSync call at src/src/postgres.ts lines
50-53, which opens dataDir/postgres.log in append mode; it sits
outside any try/catch, so its failure throws out of
managePostgresProcess (the part_000 variant, by contrast, guards its
openSync with a try/catch and an inherit fallback). -/
def openLogCall (env : EnvF) : Except String Unit :=
  if env.openLogOk then Except.ok ()
  else Except.error "EACCES: openSync failed"

/-- Steps 3-5 of managePostgresProcess from src/src/postgres.ts with
the unguarded openSync made explicit: when the open throws, the async
function rejects with no log line and no cleanup; when it succeeds the
remainder of the body is exactly PostgresTs.afterInit, whose trace
records the successful open. -/
def afterInitF (env : EnvF) (t : List Eff) : Except String RunResult :=
  match openLogCall env with
  | Except.error e => Except.error e
  | Except.ok _ => Except.ok (PostgresTs.afterInit (toEnvP env) t)

/-- Full translation of managePostgresProcess from src/src/postgres.ts:
identical to PostgresTs.managePostgresProcess except that the two
uncaught filesystem calls (mkdirSync of the data directory, openSync
of the log file) may throw, in which case the promise rejects and
nothing is reported through the logger. -/
def managePostgresProcessF (env : EnvF) : Except String RunResult :=
  match mkdirSyncCall env with
  | Except.error e => Except.error e
  | Except.ok t1 =>
    if env.hasMarker then
      afterInitF env t1
    else
      match PostgresTs.execInitdb env.initdbOk with
      | Except.ok _ =>
        afterInitF env (t1 ++
          [Eff.logInfoE "[postgres] Initializing database cluster...", Eff.initdbE])
      | Except.error _ =>
        Except.ok ⟨{ hasProc := false, stopped := false },
          t1 ++
            [Eff.logInfoE "[postgres] Initializing database cluster...", Eff.initdbE,
             Eff.logErrorE "[postgres] Failed to initialize DB. Ensure \"initdb\" is in your PATH."]⟩

end PostgresTsFull

def envOpenFail : PostgresTsFull.EnvF :=
  { dataDirExists := true, mkdirOk := true, hasMarker := true, initdbOk := true,
    openLogOk := false, probe := fun _ => true, createdbOk := true,
    dataDir := "/data", dbName := "app", port := 5432 }

/-- Claim C10, counterexample: at this input the data directory exists
and the cluster is already initialized, but opening
dataDir/postgres.log fails; the unguarded fs.openSync throw at
src/src/postgres.ts lines 50-53 rejects the promise, so
managePostgresProcess does not resolve, returns no handle, and reports
nothing through the logger - refuting the claim that it resolves on
every input with every failure path reported through the logger. -/
theorem c10_resolves_counterexample :
    PostgresTsFull.managePostgresProcessF envOpenFail =
      Except.error "EACCES: openSync failed" ∧
    ¬ ∃ r, PostgresTsFull.managePostgresProcessF envOpenFail = Except.ok r := by
  constructor
  · rfl
  · rintro ⟨r, hr⟩
    rw [show PostgresTsFull.managePostgresProcessF envOpenFail =
      Except.error "EACCES: openSync failed" from rfl] at hr
    simp at hr

/-- Claim C10, amended: provided the two filesystem calls that
postgres.ts leaves outside any try/catch succeed - the data directory
already exists or mkdirSync succeeds, and openSync of the log file
succeeds - managePostgresProcess resolves (never rejects) with a
callable stop: on initdb failure it returns before spawning with the
initial no-op stop and the failure logged; on readiness timeout it
resolves after invoking stop itself, with the timeout logged; on a
successful startup the handle is live and nothing was logged as an
error (a createdb failure is swallowed). -/
theorem c10_resolves_amended (env : PostgresTsFull.EnvF)
    (hmk : env.dataDirExists = true ∨ env.mkdirOk = true)
    (hopen : env.openLogOk = true) :
    ∃ r, PostgresTsFull.managePostgresProcessF env = Except.ok r ∧
      (env.hasMarker = false → env.initdbOk = false →
        r.trace.countP isSpawn = 0 ∧ r.handle.hasProc = false ∧
        stopFn r.handle = (r.handle, []) ∧
        Eff.logErrorE "[postgres] Failed to initialize DB. Ensure \"initdb\" is in your PATH." ∈
          r.trace) ∧
      ((∀ j, j < 30 → env.probe j = false) →
        (env.hasMarker = true ∨ env.initdbOk = true) →
        r.handle = { hasProc := true, stopped := true } ∧
        r.trace.countP isKill = 1 ∧
        Eff.logErrorE "[postgres] Timed out waiting for database to be ready." ∈ r.trace) ∧
      ((waitForReady env.probe).1 = true →
        (env.hasMarker = true ∨ env.initdbOk = true) →
        r.handle = { hasProc := true, stopped := false } ∧
        r.trace.countP isLogError = 0) := by
  have hmkeq : PostgresTsFull.mkdirSyncCall env =
      Except.ok (PostgresTs.mkdirTraceP (PostgresTsFull.toEnvP env)) := by
    unfold PostgresTsFull.mkdirSyncCall PostgresTs.mkdirTraceP PostgresTsFull.toEnvP
    by_cases hd : env.dataDirExists = true
    · simp [hd]
    · have hm2 : env.mkdirOk = true := hmk.resolve_left hd
      simp [hd, hm2]
  have hafter : ∀ t, PostgresTsFull.afterInitF env t =
      Except.ok (PostgresTs.afterInit (PostgresTsFull.toEnvP env) t) := by
    intro t
    simp [PostgresTsFull.afterInitF, PostgresTsFull.openLogCall, hopen]
  by_cases hm : env.hasMarker = true
  · refine ⟨PostgresTs.afterInit (PostgresTsFull.toEnvP env)
      (PostgresTs.mkdirTraceP (PostgresTsFull.toEnvP env)), ?_, ?_, ?_, ?_⟩
    · simp [PostgresTsFull.managePostgresProcessF, hmkeq, hm, hafter]
    · intro h1 _
      exact absurd hm (by simp [h1])
    · intro hfail _
      have hwr1 : (waitForReady env.probe).1 = false :=
        (waitForReadyAux_exhaust env.probe 30 0 (fun j hj => by simpa using hfail j hj)).1
      have h := afterInit_timeout (PostgresTsFull.toEnvP env)
        (PostgresTs.mkdirTraceP (PostgresTsFull.toEnvP env)) hwr1
        (mkdirTraceP_countP_zero _ isKill (fun q => rfl))
        (mkdirTraceP_countP_zero _ isCreatedb (fun q => rfl))
      exact ⟨h.2.2.2, h.1, h.2.1⟩
    · intro hwr1 _
      exact afterInit_success (PostgresTsFull.toEnvP env)
        (PostgresTs.mkdirTraceP (PostgresTsFull.toEnvP env)) hwr1
        (mkdirTraceP_countP_zero _ isLogError (fun q => rfl))
  · by_cases hi : env.initdbOk = true
    · refine ⟨PostgresTs.afterInit (PostgresTsFull.toEnvP env)
        (PostgresTs.mkdirTraceP (PostgresTsFull.toEnvP env) ++
          [Eff.logInfoE "[postgres] Initializing database cluster...", Eff.initdbE]),
        ?_, ?_, ?_, ?_⟩
      · simp [PostgresTsFull.managePostgresProcessF, hmkeq, hm, hi,
          PostgresTs.execInitdb, hafter]
      · intro _ h2
        exact absurd hi (by simp [h2])
      · intro hfail _
        have hwr1 : (waitForReady env.probe).1 = false :=
          (waitForReadyAux_exhaust env.probe 30 0 (fun j hj => by simpa using hfail j hj)).1
        have htk : (PostgresTs.mkdirTraceP (PostgresTsFull.toEnvP env) ++
            [Eff.logInfoE "[postgres] Initializing database cluster...", Eff.initdbE]).countP isKill = 0 := by
          simp only [List.countP_append,
            mkdirTraceP_countP_zero (PostgresTsFull.toEnvP env) isKill (fun q => rfl)]
          simp [List.countP_cons, isKill]
        have htc : (PostgresTs.mkdirTraceP (PostgresTsFull.toEnvP env) ++
            [Eff.logInfoE "[postgres] Initializing database cluster...", Eff.initdbE]).countP isCreatedb = 0 := by
          simp only [List.countP_append,
            mkdirTraceP_countP_zero (PostgresTsFull.toEnvP env) isCreatedb (fun q => rfl)]
          simp [List.countP_cons, isCreatedb]
        have h := afterInit_timeout (PostgresTsFull.toEnvP env) _ hwr1 htk htc
        exact ⟨h.2.2.2, h.1, h.2.1⟩
      · intro hwr1 _
        refine afterInit_success (PostgresTsFull.toEnvP env) _ hwr1 ?_
        simp only [List.countP_append,
          mkdirTraceP_countP_zero (PostgresTsFull.toEnvP env) isLogError (fun q => rfl)]
        simp [List.countP_cons, isLogError]
    · refine ⟨⟨{ hasProc := false, stopped := false },
        PostgresTs.mkdirTraceP (PostgresTsFull.toEnvP env) ++
          [Eff.logInfoE "[postgres] Initializing database cluster...", Eff.initdbE,
           Eff.logErrorE "[postgres] Failed to initialize DB. Ensure \"initdb\" is in your PATH."]⟩,
        ?_, ?_, ?_, ?_⟩
      · simp [PostgresTsFull.managePostgresProcessF, hmkeq, hm, hi, PostgresTs.execInitdb]
      · intro _ _
        refine ⟨?_, rfl, by simp [stopFn], by simp⟩
        simp only [List.countP_append,
          mkdirTraceP_countP_zero (PostgresTsFull.toEnvP env) isSpawn (fun q => rfl)]
        simp [List.countP_cons, isSpawn]
      · intro _ hinit
        rcases hinit with h | h
        · exact absurd h hm
        · exact absurd h hi
      · intro _ hinit
        rcases hinit with h | h
        · exact absurd h hm
        · exact absurd h hi

def envReadyF : PostgresTsFull.EnvF :=
  { dataDirExists := true, mkdirOk := true, hasMarker := true, initdbOk := true,
    openLogOk := true, probe := fun _ => true, createdbOk := true,
    dataDir := "/data", dbName := "app", port := 5432 }

theorem c10_resolves_amended_witness :
    ∃ r, PostgresTsFull.managePostgresProcessF envReadyF = Except.ok r ∧
      (envReadyF.hasMarker = false → envReadyF.initdbOk = false →
        r.trace.countP isSpawn = 0 ∧ r.handle.hasProc = false ∧
        stopFn r.handle = (r.handle, []) ∧
        Eff.logErrorE "[postgres] Failed to initialize DB. Ensure \"initdb\" is in your PATH." ∈
          r.trace) ∧
      ((∀ j, j < 30 → envReadyF.probe j = false) →
        (envReadyF.hasMarker = true ∨ envReadyF.initdbOk = true) →
        r.handle = { hasProc := true, stopped := true } ∧
        r.trace.countP isKill = 1 ∧
        Eff.logErrorE "[postgres] Timed out waiting for database to be ready." ∈ r.trace) ∧
      ((waitForReady envReadyF.probe).1 = true →
        (envReadyF.hasMarker = true ∨ envReadyF.initdbOk = true) →
        r.handle = { hasProc := true, stopped := false } ∧
        r.trace.countP isLogError = 0) :=
  c10_resolves_amended envReadyF (Or.inl rfl) rfl

/-- Claim C3: when execProtocol raises on an authenticated connection,
onMessage returns a wire-format error frame with severity ERROR, the
generic internal-error code XX000 (the handler reads no code from the
failure, so a failure carrying no more specific code gets exactly that
generic code) and the failure message, appending a ready-for-query
error frame exactly when the connection object is available; and the
socket is destroyed exactly on a transport-level failure, never by an
engine-level failure, which onMessage catches internally. -/
theorem c3_error_translation
    (execProtocol : IndexTs.Bytes → Except String (List (Unit × IndexTs.Bytes)))
    (data : IndexTs.Bytes) (msg : String)
    (herr : execProtocol data = Except.error msg) :
    IndexTs.onMessage execProtocol true true data =
      { response := some [IndexTs.OutFrame.backendErrorF "ERROR" "XX000" msg,
          IndexTs.OutFrame.readyForQueryF "error"],
        engineCalls := [data] } ∧
    IndexTs.onMessage execProtocol false true data =
      { response := some [IndexTs.OutFrame.backendErrorF "ERROR" "XX000" msg],
        engineCalls := [data] } ∧
    (∀ connDefined inp, inp.transportError = false →
      (IndexTs.handleConnection execProtocol connDefined inp).2 = false) ∧
    (∀ connDefined inp, inp.transportError = true →
      (IndexTs.handleConnection execProtocol connDefined inp).2 = true) := by
  refine ⟨?_, ?_, ?_, ?_⟩
  · simp [IndexTs.onMessage, herr]
  · simp [IndexTs.onMessage, herr]
  · intro connDefined inp h
    simp [IndexTs.handleConnection, h]
  · intro connDefined inp h
    simp [IndexTs.handleConnection, h]

theorem c3_error_translation_witness :
    (IndexTs.onMessage (fun _ => Except.error "boom") true true [1, 2] =
      { response := some [IndexTs.OutFrame.backendErrorF "ERROR" "XX000" "boom",
          IndexTs.OutFrame.readyForQueryF "error"],
        engineCalls := [[1, 2]] } ∧
    IndexTs.onMessage (fun _ => Except.error "boom") false true [1, 2] =
      { response := some [IndexTs.OutFrame.backendErrorF "ERROR" "XX000" "boom"],
        engineCalls := [[1, 2]] } ∧
    (∀ connDefined inp, inp.transportError = false →
      (IndexTs.handleConnection (fun _ => Except.error "boom") connDefined inp).2 = false) ∧
    (∀ connDefined inp, inp.transportError = true →
      (IndexTs.handleConnection (fun _ => Except.error "boom") connDefined inp).2 = true)) :=
  c3_error_translation (fun _ => Except.error "boom") [1, 2] "boom" rfl

/-- Claim C4: before authentication, onMessage produces no response and
performs no execProtocol call; after authentication the inbound data is
forwarded verbatim to execProtocol, and on success the response frames
are exactly the engine's response data, in the order produced. -/
theorem c4_auth_gating
    (execProtocol : IndexTs.Bytes → Except String (List (Unit × IndexTs.Bytes)))
    (connDefined : Bool) (data : IndexTs.Bytes) :
    IndexTs.onMessage execProtocol connDefined false data =
      { response := none, engineCalls := [] } ∧
    (IndexTs.onMessage execProtocol connDefined true data).engineCalls = [data] ∧
    (∀ rs, execProtocol data = Except.ok rs →
      IndexTs.onMessage execProtocol connDefined true data =
        { response := some (rs.map fun p => IndexTs.OutFrame.dataF p.2),
          engineCalls := [data] }) := by
  refine ⟨?_, ?_, ?_⟩
  · simp [IndexTs.onMessage]
  · cases hx : execProtocol data <;> simp [IndexTs.onMessage, hx]
  · intro rs hx
    simp [IndexTs.onMessage, hx]

theorem c4_auth_gating_witness :
    (IndexTs.onMessage (fun b => Except.ok [((), b)]) true false [7] =
      { response := none, engineCalls := [] } ∧
    (IndexTs.onMessage (fun b => Except.ok [((), b)]) true true [7]).engineCalls = [[7]] ∧
    (∀ rs, (fun (b : IndexTs.Bytes) => Except.ok (ε := String) [((), b)]) [7] = Except.ok rs →
      IndexTs.onMessage (fun b => Except.ok [((), b)]) true true [7] =
        { response := some (rs.map fun p => IndexTs.OutFrame.dataF p.2),
          engineCalls := [[7]] })) :=
  c4_auth_gating (fun b => Except.ok [((), b)]) true [7]

/-- Claim C8: the PGlite storage path is resolved once by the config
hook; configureServer applies the directory-shape correction at most
once, synchronously, before the engine is constructed; the engine
starts on the corrected path, and no further recomputation happens in
the session (the history has at most two entries, headed by the
config-time resolution). -/
theorem c8_path_resolution (sep tmpdir rootBasename rootHash dbName : String)
    (optDbPath : Option String) (fs : IndexTs.FsView) :
    (IndexTs.runPGliteSession sep tmpdir rootBasename rootHash dbName optDbPath fs).dbPathHistory.length ≤ 2 ∧
    (IndexTs.runPGliteSession sep tmpdir rootBasename rootHash dbName optDbPath fs).dbPathHistory.head? =
      some (IndexTs.resolvePGliteDbPath sep tmpdir rootBasename rootHash dbName optDbPath) ∧
    (IndexTs.runPGliteSession sep tmpdir rootBasename rootHash dbName optDbPath fs).engineStartPath =
      IndexTs.correctDbPath fs dbName
        (IndexTs.resolvePGliteDbPath sep tmpdir rootBasename rootHash dbName optDbPath) ∧
    ((fs.pathExists (IndexTs.resolvePGliteDbPath sep tmpdir rootBasename rootHash dbName optDbPath) &&
      fs.isDirectory (IndexTs.resolvePGliteDbPath sep tmpdir rootBasename rootHash dbName optDbPath)) = false →
      (IndexTs.runPGliteSession sep tmpdir rootBasename rootHash dbName optDbPath fs).dbPathHistory =
        [IndexTs.resolvePGliteDbPath sep tmpdir rootBasename rootHash dbName optDbPath]) ∧
    ((fs.pathExists (IndexTs.resolvePGliteDbPath sep tmpdir rootBasename rootHash dbName optDbPath) &&
      fs.isDirectory (IndexTs.resolvePGliteDbPath sep tmpdir rootBasename rootHash dbName optDbPath)) = true →
      (IndexTs.runPGliteSession sep tmpdir rootBasename rootHash dbName optDbPath fs).dbPathHistory =
        [IndexTs.resolvePGliteDbPath sep tmpdir rootBasename rootHash dbName optDbPath,
         joinPath (IndexTs.resolvePGliteDbPath sep tmpdir rootBasename rootHash dbName optDbPath)
           (dbName ++ ".db")]) := by
  by_cases hc : (fs.pathExists (IndexTs.resolvePGliteDbPath sep tmpdir rootBasename rootHash dbName optDbPath) &&
      fs.isDirectory (IndexTs.resolvePGliteDbPath sep tmpdir rootBasename rootHash dbName optDbPath)) = true
  · refine ⟨?_, ?_, rfl, ?_, ?_⟩ <;>
      simp [IndexTs.runPGliteSession, IndexTs.correctDbPath, hc]
  · refine ⟨?_, ?_, rfl, ?_, ?_⟩ <;>
      simp [IndexTs.runPGliteSession, IndexTs.correctDbPath, hc]

theorem c8_path_resolution_witness :
    ((IndexTs.runPGliteSession "/" "/tmp" "app" "abc1234" "app" none
      { pathExists := fun _ => false, isDirectory := fun _ => false }).dbPathHistory.length ≤ 2 ∧
    (IndexTs.runPGliteSession "/" "/tmp" "app" "abc1234" "app" none
      { pathExists := fun _ => false, isDirectory := fun _ => false }).dbPathHistory.head? =
      some (IndexTs.resolvePGliteDbPath "/" "/tmp" "app" "abc1234" "app" none) ∧
    (IndexTs.runPGliteSession "/" "/tmp" "app" "abc1234" "app" none
      { pathExists := fun _ => false, isDirectory := fun _ => false }).engineStartPath =
      IndexTs.correctDbPath
        { pathExists := fun _ => false, isDirectory := fun _ => false } "app"
        (IndexTs.resolvePGliteDbPath "/" "/tmp" "app" "abc1234" "app" none) ∧
    ((((fun (_ : String) => false) (IndexTs.resolvePGliteDbPath "/" "/tmp" "app" "abc1234" "app" none)) &&
      ((fun (_ : String) => false) (IndexTs.resolvePGliteDbPath "/" "/tmp" "app" "abc1234" "app" none))) = false →
      (IndexTs.runPGliteSession "/" "/tmp" "app" "abc1234" "app" none
        { pathExists := fun _ => false, isDirectory := fun _ => false }).dbPathHistory =
        [IndexTs.resolvePGliteDbPath "/" "/tmp" "app" "abc1234" "app" none]) ∧
    ((((fun (_ : String) => false) (IndexTs.resolvePGliteDbPath "/" "/tmp" "app" "abc1234" "app" none)) &&
      ((fun (_ : String) => false) (IndexTs.resolvePGliteDbPath "/" "/tmp" "app" "abc1234" "app" none))) = true →
      (IndexTs.runPGliteSession "/" "/tmp" "app" "abc1234" "app" none
        { pathExists := fun _ => false, isDirectory := fun _ => false }).dbPathHistory =
        [IndexTs.resolvePGliteDbPath "/" "/tmp" "app" "abc1234" "app" none,
         joinPath (IndexTs.resolvePGliteDbPath "/" "/tmp" "app" "abc1234" "app" none) ("app" ++ ".db")])) :=
  c8_path_resolution "/" "/tmp" "app" "abc1234" "app" none
    { pathExists := fun _ => false, isDirectory := fun _ => false }

end VitePG
